import Mathlib

/-!
Shallow embedding of the real-time collaboration core of this repository:
`backends/backend-collaboration/app/session_manager.py` (the `SessionManager`
class) and `backends/backend-collaboration/app/routes.py` (the HTTP session
endpoints and the Flask-SocketIO WebSocket event handlers).

Conventions of the embedding:
* Python dicts keyed by session id become association lists
  `List (String × _)` with a propositional-equality lookup `alookup`.
* Wall-clock timestamps (`datetime.utcnow()`) are passed in as `Nat`
  parameters named `now`; generated UUIDs (`uuid.uuid4()`) are passed in as
  `String` parameters.
* The external CRDT engine (`y_py`, treated by the specification as an
  opaque external collaborator with `encode_state_as_update` /
  `apply_update` primitives) is instantiated by a small concrete model
  (`Doc`) that satisfies the interface of specification §6: a document is a
  set of integrated items, the full-state encoding lists them, and merging
  is set union, so that merging a full-state encoding into an empty
  document reproduces the document.
* `emit(...)` calls become explicit `Emission` values returned by each
  handler; `recipients` computes which connections an emission reaches,
  following Flask-SocketIO semantics (no `to=` target: the requesting
  connection only; `to=room`: all members of the room, minus the sender
  when `include_self=False`).
-/

namespace Collab

/-- Byte strings and the `list of ints` wire form are both embedded as
`List Nat` (the gateway's normalization `bytes(list)` is the identity in
this embedding). -/
abbrev Bytes := List Nat

/-- Association-list lookup for Python dict access `d[k]` / `k in d`. -/
def alookup (k : String) : List (String × α) → Option α
  | [] => none
  | (k2, v) :: t => if k2 = k then some v else alookup k t

/-- Model of a `Y.YDoc`: the set of CRDT items the document has
integrated.  The internal state is opaque to the repository's code (spec
§1 non-goals); this concrete instantiation satisfies the interface the
code uses. -/
structure Doc where
  items : List Nat
deriving DecidableEq, Repr

/-- `Y.YDoc()` — a fresh, empty document. -/
def YDoc_new : Doc := ⟨[]⟩

/-- `str(doc.get_text('codemirror'))` — the text container's current
content, decoded from the integrated items. -/
def getTextStr (d : Doc) : String := String.mk (d.items.map Char.ofNat)

/-- `text.push(txn, s)` — append `s` to the text container (pushing the
empty string integrates no new items). -/
def pushText (d : Doc) (s : String) : Doc := ⟨d.items ++ s.data.map Char.toNat⟩

/-- `Y.encode_state_as_update(doc)` — encode the full document state as a
single update (spec §6: full-state bootstrap encoding). -/
def encode_state_as_update_full (d : Doc) : Bytes := d.items

/-- Whether the CRDT engine can decode `sv` as a state vector.  Models the
engine's parser: a well-formed encoded state vector in this model has even
length; a malformed one makes the delta encoder raise. -/
def svWellFormed (sv : Bytes) : Bool := sv.length % 2 = 0

/-- `Y.encode_state_as_update(doc, state_vector)` — the delta the peer
described by `sv` is missing; raises (`Except.error`) on a malformed
state vector. -/
def encode_state_as_update_delta (d : Doc) (sv : Bytes) : Except String Bytes :=
  if svWellFormed sv then
    Except.ok (d.items.filter (fun i => !(sv.contains i)))
  else
    Except.error ("malformed state vector")

/-- `Y.apply_update(txn, u)` — merge foreign update bytes into the local
document (set union of integrated items). -/
def apply_update (d : Doc) (u : Bytes) : Doc := ⟨d.items.union u⟩

/-- One value of `SessionManager._sessions`: `{'doc': ..., 'created_at':
..., 'last_updated': ..., 'participants': set()}`. -/
structure SessEntry where
  doc : Doc
  created_at : Nat
  last_updated : Nat
  mgrParticipants : List String
deriving DecidableEq, Repr

/-- `SessionManager.__init__`: `self._sessions = {}` together with ONE
`self._lock = threading.Lock()` for the whole manager (not one lock per
session — see `processUpdateLockOf`). -/
structure SessionManager where
  sessions : List (String × SessEntry)
deriving DecidableEq, Repr

/-- `SessionManager.get_doc(session_id)`: under `self._lock`, if the id is
unseen, create a fresh `Y.YDoc`, initialize its text container to empty
(`if not str(text): text.push(txn, "")`), and store the entry; return the
session's document together with the updated manager.  The whole
check-then-create runs while holding the manager lock, so first access is
atomic. -/
def SessionManager.get_doc (m : SessionManager) (sid : String) (now : Nat) :
    Doc × SessionManager :=
  match alookup sid m.sessions with
  | some e => (e.doc, m)
  | none =>
    let d1 := if getTextStr YDoc_new = "" then pushText YDoc_new "" else YDoc_new
    (d1, ⟨m.sessions ++ [(sid, ⟨d1, now, now, []⟩)]⟩)

/-- The sync-step-2 bytes computed inside
`SessionManager.handle_sync_step1`: if the state vector is falsy (absent
or empty) encode the full state, otherwise try the delta encoding and
fall back to the full state if the engine raises. -/
def syncStep2Bytes (doc : Doc) (state_vector : Option Bytes) : Bytes :=
  match state_vector with
  | none => encode_state_as_update_full doc
  | some v =>
    if v = [] then encode_state_as_update_full doc
    else
      match encode_state_as_update_delta doc v with
      | Except.ok u => u
      | Except.error _ => encode_state_as_update_full doc

/-- `SessionManager.handle_sync_step1(session_id, state_vector)`: get (or
create) the doc and compute the step-2 reply bytes; the error path never
escapes (the `except` clause returns the full-state encoding).  Returns
the bytes and the updated manager. -/
def SessionManager.handle_sync_step1 (m : SessionManager) (sid : String)
    (state_vector : Option Bytes) (now : Nat) : Bytes × SessionManager :=
  (syncStep2Bytes (m.get_doc sid now).1 state_vector, (m.get_doc sid now).2)

/-- Rewrite the value stored at key `k` (dict value mutation); entries at
other keys are untouched. -/
def updAssoc {α : Type} (k : String) (g : α → α) :
    List (String × α) → List (String × α)
  | [] => []
  | p :: t => if p.1 = k then (p.1, g p.2) :: updAssoc k g t
              else p :: updAssoc k g t

/-- Replace the entry at `sid` (dict value mutation). -/
def updEntry (l : List (String × SessEntry)) (sid : String)
    (f : SessEntry → SessEntry) : List (String × SessEntry) :=
  updAssoc sid f l

/-- `SessionManager.process_update(session_id, update_data)`: get (or
create) the doc, then under `self._lock` merge the update into it and
refresh `last_updated`. -/
def SessionManager.process_update (m : SessionManager) (sid : String)
    (u : Bytes) (now : Nat) : SessionManager :=
  ⟨updEntry ((m.get_doc sid now).2).sessions sid
    (fun e => { e with doc := apply_update e.doc u, last_updated := now })⟩

/-- `SessionManager.get_document_state(session_id)`. -/
def SessionManager.get_document_state (m : SessionManager) (sid : String)
    (now : Nat) : Bytes × SessionManager :=
  (encode_state_as_update_full (m.get_doc sid now).1, (m.get_doc sid now).2)

/-- Identifier of a mutual-exclusion lock. -/
abbrev LockId := Nat

/-- The manager-wide lock created once in `SessionManager.__init__`
(`self._lock = threading.Lock()`). -/
def managerLock : LockId := 0

/-- The lock `process_update` acquires (`with self._lock:`) when merging
an update for session `sid`: it is the manager's single lock, whatever the
session id — the source keeps no per-session locks. -/
def processUpdateLockOf (_m : SessionManager) (_sid : String) : LockId :=
  managerLock

/-- Two merges may interleave only when they hold different locks. -/
def mayMergeInParallel (m : SessionManager) (s1 s2 : String) : Bool :=
  processUpdateLockOf m s1 != processUpdateLockOf m s2

/-! ## routes.py — shared state, emissions, HTTP endpoints -/

/-- String constants of `routes.py` (event names, error codes, messages). -/
def strNone : String := "None"

def roomPrefixStr : String := "session_"

def evSessionState : String := "session_state"

def evSyncStep2 : String := "yjs_sync_step2"

def evYjsUpdate : String := "yjs_update"

def evCursorUpdated : String := "cursor_updated"

def evChatMessage : String := "chat_message"

def evUserJoined : String := "user_joined"

def evUserLeft : String := "user_left"

def evConnected : String := "connected"

def evDisconnected : String := "disconnected"

def codeNotFound : String := "SESSION_NOT_FOUND"

def msgNotFound : String := "Collaboration session not found"

def codeFull : String := "SESSION_FULL"

def msgFull : String := "Collaboration session is full"

def codeInternal : String := "INTERNAL_ERROR"

def msgInternalTxt : String := "An internal server error occurred"

def msgLeftOk : String := "Left session successfully"

def msgConnectedTxt : String := "Connected to collaboration service"

def msgDisconnectedTxt : String := "Disconnected from collaboration service"

def defaultSessType : String := "general"

/-- Python `f"...{x}..."` string interpolation of an optional value. -/
def pyStr : Option String → String
  | none => strNone
  | some s => s

/-- `f"session_{session_id}"` — the SocketIO room of a session. -/
def sessionRoom (sid : String) : String := roomPrefixStr ++ sid

/-- Room name when the payload's `session_id` may be absent. -/
def sessionRoomOf (sid : Option String) : String := roomPrefixStr ++ pyStr sid

/-- One value of the module-level `active_sessions` dict: the session
metadata built by `create_session`.  `updated_at` is absent until the
first effective join/leave mutation.  `settings` is carried opaquely. -/
structure SessionData where
  id : String
  creator_id : String
  name : String
  sessType : String
  max_participants : Nat
  created_at : Nat
  participants : List String
  settings : String
  updated_at : Option Nat
deriving DecidableEq, Repr

/-- The server's shared mutable state: the module-level `active_sessions`
dict, the SocketIO room-membership table (room name → connection ids, in
join order), and the module-level `session_manager`. -/
structure ServerState where
  active_sessions : List (String × SessionData)
  rooms : List (String × List String)
  manager : SessionManager
deriving DecidableEq, Repr

/-- Connections currently in a room (empty for an unknown room). -/
def roomMembers (st : ServerState) (room : String) : List String :=
  (alookup room st.rooms).getD []

/-- `join_room(room)` for connection `conn` (idempotent, as in SocketIO). -/
def addToRoom (rooms : List (String × List String)) (room conn : String) :
    List (String × List String) :=
  match alookup room rooms with
  | some _ =>
    updAssoc room (fun ms => if conn ∈ ms then ms else ms ++ [conn]) rooms
  | none => rooms ++ [(room, [conn])]

/-- Target of an `emit(...)` call: default (the requesting connection
only), or a room with or without `include_self`. -/
inductive EmitTarget
  | toSender : EmitTarget
  | toRoom (room : String) (includeSelf : Bool) : EmitTarget
deriving DecidableEq, Repr

/-- The JSON payload of an emitted event; only the fields `routes.py`
actually sends are modelled, each optional. -/
structure Payload where
  session_id : Option String := none
  user_id : Option String := none
  participants : Option (List String) := none
  participant_count : Option Nat := none
  settings : Option String := none
  docUpdate : Option Bytes := none
  position : Option String := none
  message : Option String := none
  payload_id : Option String := none
  timestamp : Option Nat := none
deriving DecidableEq, Repr

/-- One `emit(event, payload, ...)` call recorded by a handler. -/
structure Emission where
  event : String
  payload : Payload
  target : EmitTarget
deriving DecidableEq, Repr

/-- The connections an emission is delivered to, given the room table of
`st` and the connection `sender` whose handler emitted it (Flask-SocketIO
semantics). -/
def recipients (st : ServerState) (sender : String) (e : Emission) :
    List String :=
  match e.target with
  | EmitTarget.toSender => [sender]
  | EmitTarget.toRoom room includeSelf =>
    if includeSelf then roomMembers st room
    else (roomMembers st room).filter (fun c => c ≠ sender)

/-- Result of an HTTP endpoint: a session body, a message body, or an
`error_response(code, msg), status`. -/
inductive HttpResult
  | ok (s : SessionData) : HttpResult
  | okMsg (m : String) : HttpResult
  | err (code msg : String) (status : Nat) : HttpResult
deriving DecidableEq, Repr

/-- Request body of `POST /sessions` (`request.get_json()`), each field
optional with the defaults `create_session` applies. -/
structure CreateData where
  name : Option String := none
  sessType : Option String := none
  maxParticipants : Option Nat := none
  settings : Option String := none
deriving DecidableEq, Repr

/-- `active_sessions[sid] = sd` — dict assignment (replace or append). -/
def upsert (l : List (String × SessionData)) (sid : String)
    (sd : SessionData) : List (String × SessionData) :=
  match alookup sid l with
  | some _ => updAssoc sid (fun _ => sd) l
  | none => l ++ [(sid, sd)]

/-- `POST /sessions` (`create_session`): build the metadata with the
caller as sole participant, store it, and initialize the session's YDoc
via `session_manager.get_doc`.  `gen_sid` stands for the generated
`str(uuid.uuid4())`. -/
def create_session (st : ServerState) (user_id : String) (data : CreateData)
    (gen_sid : String) (now : Nat) : HttpResult × ServerState :=
  let sd : SessionData :=
    { id := gen_sid
      creator_id := user_id
      name := data.name.getD (String.mk ("Collaboration Session ".data ++ gen_sid.data.take 8))
      sessType := data.sessType.getD defaultSessType
      max_participants := data.maxParticipants.getD 4
      created_at := now
      participants := [user_id]
      settings := data.settings.getD ""
      updated_at := none }
  (HttpResult.ok sd,
   { st with active_sessions := upsert st.active_sessions gen_sid sd
             manager := (st.manager.get_doc gen_sid now).2 })

/-- `GET /sessions/<session_id>` (`get_session`): 404 on unknown id, else
the stored metadata. -/
def get_session (st : ServerState) (sid : String) : HttpResult :=
  match alookup sid st.active_sessions with
  | none => HttpResult.err codeNotFound msgNotFound 404
  | some s => HttpResult.ok s

/-- The body WRITTEN INSIDE the `join_session` view: 404 on unknown id;
400 `SESSION_FULL` when the participant count is already at or above
`max_participants` (no mutation); otherwise add the user if absent
(refreshing `updated_at`) and emit `user_joined` with the updated count to
the session's room.  This body is UNREACHABLE at runtime (see
`join_session`); it is embedded to document what the dead code would do. -/
def join_session_body (st : ServerState) (user_id sid : String) (now : Nat) :
    HttpResult × ServerState × List Emission :=
  match alookup sid st.active_sessions with
  | none => (HttpResult.err codeNotFound msgNotFound 404, st, [])
  | some s =>
    if s.max_participants ≤ s.participants.length then
      (HttpResult.err codeFull msgFull 400, st, [])
    else
      let s2 := if user_id ∈ s.participants then s
                else { s with participants := s.participants ++ [user_id]
                              updated_at := some now }
      (HttpResult.ok s2,
       { st with active_sessions := upsert st.active_sessions sid s2 },
       [{ event := evUserJoined
          payload := { session_id := some sid, user_id := some user_id
                       participant_count := some s2.participants.length }
          target := EmitTarget.toRoom (sessionRoom sid) true }])

/-- `POST /sessions/<session_id>/join` as the program actually behaves:
the route passes the `session_id` URL segment as a keyword argument, but
the view is declared `def join_session():` with no parameter (it reads
the id from the JSON body instead).  The decorator chain
(`jwt_required` → `rate_limit` → `standard_response`) forwards
`*args, **kwargs` unchanged, so the call raises `TypeError` inside
`standard_response`'s `try`; its `except Exception` converts every
request into the 500 `INTERNAL_ERROR` response.  The view body
(`join_session_body`) never runs: no lookup, no capacity check, no
mutation, no emission. -/
def join_session (st : ServerState) (_user_id _sid : String) (_now : Nat) :
    HttpResult × ServerState × List Emission :=
  (HttpResult.err codeInternal msgInternalTxt 500, st, [])

/-- The body WRITTEN INSIDE the `leave_session` view: 404 on unknown id;
remove the user if present (`list.remove` drops the first occurrence,
refreshing `updated_at`), then emit `user_left` with the updated count to
the session's room.  Unreachable at runtime (see `leave_session`);
embedded to document what the dead code would do. -/
def leave_session_body (st : ServerState) (user_id sid : String) (now : Nat) :
    HttpResult × ServerState × List Emission :=
  match alookup sid st.active_sessions with
  | none => (HttpResult.err codeNotFound msgNotFound 404, st, [])
  | some s =>
    let s2 := if user_id ∈ s.participants then
                { s with participants := s.participants.erase user_id
                         updated_at := some now }
              else s
    (HttpResult.okMsg msgLeftOk,
     { st with active_sessions := upsert st.active_sessions sid s2 },
     [{ event := evUserLeft
        payload := { session_id := some sid, user_id := some user_id
                     participant_count := some s2.participants.length }
        target := EmitTarget.toRoom (sessionRoom sid) true }])

/-- `POST /sessions/<session_id>/leave` as the program actually behaves:
the same route/view signature mismatch as `join_session` (`def
leave_session():` takes no parameter while the route passes
`session_id`), so `standard_response` catches the `TypeError` and every
request returns the 500 `INTERNAL_ERROR` response; `leave_session_body`
never runs and nothing is mutated or emitted. -/
def leave_session (st : ServerState) (_user_id _sid : String) (_now : Nat) :
    HttpResult × ServerState × List Emission :=
  (HttpResult.err codeInternal msgInternalTxt 500, st, [])

/-! ## routes.py — WebSocket event handlers -/

/-- Python truthiness of an optional string field taken from the event
payload (`data.get(...)`): falsy when absent or empty. -/
def truthyStr : Option String → Bool
  | none => false
  | some s => s ≠ ""

/-- Python truthiness of an optional byte payload. -/
def truthyBytes : Option Bytes → Bool
  | none => false
  | some b => b ≠ []

/-- `@socketio.on('connect')` (`handle_connect`): acknowledge to the new
connection only; no session association. -/
def handle_connect (st : ServerState) (_conn : String) :
    ServerState × List Emission :=
  (st,
   [{ event := evConnected
      payload := { message := some msgConnectedTxt }
      target := EmitTarget.toSender }])

/-- `@socketio.on('join_session')` (`handle_join_session`) for an event
carrying `session_id` and `user_id`: always `join_room` first; then, only
if the session id is in `active_sessions`, add the user to the
participants if absent (refreshing `updated_at`) and emit `session_state`
— with `to=` the session room and the default `include_self` — carrying
the participants and settings. -/
def handle_join_session (st : ServerState) (conn session_id user_id : String)
    (now : Nat) : ServerState × List Emission :=
  let st1 := { st with rooms := addToRoom st.rooms (sessionRoom session_id) conn }
  match alookup session_id st1.active_sessions with
  | none => (st1, [])
  | some s =>
    let s2 := if user_id ∈ s.participants then s
              else { s with participants := s.participants ++ [user_id]
                            updated_at := some now }
    ({ st1 with active_sessions := upsert st1.active_sessions session_id s2 },
     [{ event := evSessionState
        payload := { session_id := some session_id
                     participants := some s2.participants
                     settings := some s2.settings }
        target := EmitTarget.toRoom (sessionRoom session_id) true }])

/-- `@socketio.on('yjs_sync_step1')` (`handle_yjs_sync_step1`): return
early when `session_id` is falsy; otherwise normalize the state vector
(identity in this embedding), call
`session_manager.handle_sync_step1`, and emit `yjs_sync_step2` with the
resulting update — with no `to=` target, so to the requesting connection
only. -/
def handle_yjs_sync_step1 (st : ServerState) (_conn : String)
    (session_id : Option String) (state_vector : Option Bytes) (now : Nat) :
    ServerState × List Emission :=
  match session_id with
  | none => (st, [])
  | some sid =>
    if sid = "" then (st, [])
    else
      ({ st with manager := (st.manager.handle_sync_step1 sid state_vector now).2 },
       [{ event := evSyncStep2
          payload := { session_id := some sid
                       docUpdate :=
                         some (st.manager.handle_sync_step1 sid state_vector now).1 }
          target := EmitTarget.toSender }])

/-- `@socketio.on('yjs_update')` (`handle_yjs_update`): return early when
`session_id` or `update` is falsy; otherwise merge via
`session_manager.process_update` and broadcast `yjs_update` to the
session room with `include_self=False`. -/
def handle_yjs_update (st : ServerState) (_conn : String)
    (session_id : Option String) (upd : Option Bytes) (now : Nat) :
    ServerState × List Emission :=
  match session_id, upd with
  | some sid, some u =>
    if sid = "" ∨ u = [] then (st, [])
    else
      ({ st with manager := st.manager.process_update sid u now },
       [{ event := evYjsUpdate
          payload := { session_id := some sid, docUpdate := some u }
          target := EmitTarget.toRoom (sessionRoom sid) false }])
  | _, _ => (st, [])

/-- `@socketio.on('cursor_position')` (`handle_cursor_position`): no
guard and no document mutation; broadcast `cursor_updated` (with a server
timestamp) to the session room with `include_self=False`. -/
def handle_cursor_position (st : ServerState) (_conn : String)
    (session_id user_id position : Option String) (now : Nat) :
    ServerState × List Emission :=
  (st,
   [{ event := evCursorUpdated
      payload := { session_id := session_id, user_id := user_id
                   position := position, timestamp := some now }
      target := EmitTarget.toRoom (sessionRoomOf session_id) false }])

/-- `@socketio.on('chat_message')` (`handle_chat_message`): build the
chat payload with a freshly generated id (`gen_id` stands for
`str(uuid.uuid4())`) and timestamp, and broadcast it to the session room
with the default `include_self` (the sender included). -/
def handle_chat_message (st : ServerState) (_conn : String)
    (session_id user_id message : Option String) (gen_id : String)
    (now : Nat) : ServerState × List Emission :=
  (st,
   [{ event := evChatMessage
      payload := { payload_id := some gen_id, session_id := session_id
                   user_id := user_id, message := message
                   timestamp := some now }
      target := EmitTarget.toRoom (sessionRoomOf session_id) true }])

/-- `@socketio.on('disconnect')` (`handle_disconnect`): the source's
entire handler is a single `emit('disconnected', ...)` to the
disconnecting connection; it touches neither `active_sessions` nor the
room table nor the session manager. -/
def handle_disconnect (st : ServerState) (_conn : String) :
    ServerState × List Emission :=
  (st,
   [{ event := evDisconnected
      payload := { message := some msgDisconnectedTxt }
      target := EmitTarget.toSender }])

/-! ## Operation sequences over the shared state -/

/-- The participant-mutating operations of the claim set: `POST /sessions`
(create), HTTP join, HTTP leave, and the WebSocket `join_session` event. -/
inductive Op
  | createOp (uid : String) (data : CreateData) (gen_sid : String) (now : Nat) : Op
  | httpJoinOp (uid sid : String) (now : Nat) : Op
  | httpLeaveOp (uid sid : String) (now : Nat) : Op
  | wsJoinOp (conn sid uid : String) (now : Nat) : Op

/-- The state reached after one operation. -/
def applyOp (st : ServerState) : Op → ServerState
  | Op.createOp uid data gsid now => (create_session st uid data gsid now).2
  | Op.httpJoinOp uid sid now => (join_session st uid sid now).2.1
  | Op.httpLeaveOp uid sid now => (leave_session st uid sid now).2.1
  | Op.wsJoinOp conn sid uid now => (handle_join_session st conn sid uid now).1

/-- The state reached after a sequence of operations. -/
def applyOps (st : ServerState) (ops : List Op) : ServerState :=
  ops.foldl applyOp st

/-- The process-start state: empty session table, empty rooms, empty
manager. -/
def initialState : ServerState := ⟨[], [], ⟨[]⟩⟩

/-- The participants list stored for `sid`, when the session exists. -/
def participantsOf (st : ServerState) (sid : String) : Option (List String) :=
  (alookup sid st.active_sessions).map SessionData.participants

/-- The `updated_at` field stored for `sid`, when the session exists. -/
def updatedAtOf (st : ServerState) (sid : String) : Option (Option Nat) :=
  (alookup sid st.active_sessions).map SessionData.updated_at

/-- Invariant: every stored session's participants list has no duplicate
user id. -/
def ParticipantsNodup (st : ServerState) : Prop :=
  ∀ q ∈ st.active_sessions, (q.2).participants.Nodup

/-! ## Lemmas about the association-list primitives -/

theorem alookup_mem {α : Type} {k : String} {l : List (String × α)} {v : α}
    (h : alookup k l = some v) : (k, v) ∈ l := by
  induction l with
  | nil => simp [alookup] at h
  | cons p t ih =>
    obtain ⟨k2, v2⟩ := p
    by_cases hk : k2 = k
    · subst hk
      simp [alookup] at h
      subst h
      exact List.mem_cons_self _ _
    · simp [alookup, hk] at h
      exact List.mem_cons_of_mem _ (ih h)

theorem alookup_append_single {α : Type} {k : String} {l : List (String × α)}
    (v : α) (h : alookup k l = none) : alookup k (l ++ [(k, v)]) = some v := by
  induction l with
  | nil => simp [alookup]
  | cons p t ih =>
    obtain ⟨k2, v2⟩ := p
    by_cases hk : k2 = k
    · simp [alookup, hk] at h
    · simp [alookup, hk] at h ⊢
      exact ih h

theorem alookup_updAssoc_self {α : Type} {k : String} {l : List (String × α)}
    {v : α} (g : α → α) (h : alookup k l = some v) :
    alookup k (updAssoc k g l) = some (g v) := by
  induction l with
  | nil => simp [alookup] at h
  | cons p t ih =>
    obtain ⟨k2, v2⟩ := p
    by_cases hk : k2 = k
    · subst hk
      simp [alookup] at h
      subst h
      simp [updAssoc, alookup]
    · simp [alookup, hk] at h
      simp [updAssoc, alookup, hk]
      exact ih h

theorem mem_updAssoc {α : Type} {k : String} {g : α → α}
    {q : String × α} {l : List (String × α)}
    (h : q ∈ updAssoc k g l) : (∃ p, p ∈ l ∧ q = (p.1, g p.2)) ∨ q ∈ l := by
  induction l with
  | nil => simp [updAssoc] at h
  | cons p t ih =>
    by_cases hk : p.1 = k
    · simp [updAssoc, hk] at h
      rcases h with h | h
      · exact Or.inl ⟨p, List.mem_cons_self _ _, by rw [hk]; exact h⟩
      · rcases ih h with ⟨p2, hp2, hq⟩ | h2
        · exact Or.inl ⟨p2, List.mem_cons_of_mem _ hp2, hq⟩
        · exact Or.inr (List.mem_cons_of_mem _ h2)
    · simp [updAssoc, hk] at h
      rcases h with h | h
      · exact Or.inr (by simp [h])
      · rcases ih h with ⟨p2, hp2, hq⟩ | h2
        · exact Or.inl ⟨p2, List.mem_cons_of_mem _ hp2, hq⟩
        · exact Or.inr (List.mem_cons_of_mem _ h2)

theorem alookup_upsert_self {l : List (String × SessionData)} {sid : String}
    (sd : SessionData) : alookup sid (upsert l sid sd) = some sd := by
  unfold upsert
  cases hl : alookup sid l with
  | none => exact alookup_append_single sd hl
  | some s0 => exact alookup_updAssoc_self (fun _ => sd) hl

theorem mem_upsert {l : List (String × SessionData)} {sid : String}
    {sd : SessionData} {q : String × SessionData}
    (h : q ∈ upsert l sid sd) : q.2 = sd ∨ q ∈ l := by
  unfold upsert at h
  cases hl : alookup sid l with
  | none =>
    rw [hl] at h
    rcases List.mem_append.mp h with h1 | h1
    · exact Or.inr h1
    · left
      simp at h1
      rw [h1]
  | some s0 =>
    rw [hl] at h
    rcases mem_updAssoc h with ⟨p, _, hq⟩ | h2
    · left
      rw [hq]
    · exact Or.inr h2

theorem mem_addToRoom_self (rooms : List (String × List String))
    (room conn : String) :
    conn ∈ (alookup room (addToRoom rooms room conn)).getD [] := by
  unfold addToRoom
  cases hl : alookup room rooms with
  | none =>
    rw [alookup_append_single [conn] hl]
    simp
  | some ms =>
    rw [alookup_updAssoc_self (fun ms => if conn ∈ ms then ms else ms ++ [conn]) hl]
    by_cases hc : conn ∈ ms
    · simp [hc]
    · simp [hc]

/-! ## Concrete fixtures used by counterexamples and witnesses -/

def sidS : String := "s"

def uidU : String := "u"

def uidV : String := "v"

def uidW : String := "w"

def connC1 : String := "c1"

def connC2 : String := "c2"

def genId1 : String := "msg-0001"

/-- A stored session with two participants, used by the C1 counterexample. -/
def exSessUV : SessionData :=
  { id := sidS, creator_id := uidU, name := sidS, sessType := defaultSessType
    max_participants := 4, created_at := 0, participants := [uidU, uidV]
    settings := "", updated_at := none }

/-- State: session `s` stored with participants `u, v`; both of their
connections `c1, c2` are in the session room. -/
def exStateC1 : ServerState :=
  ⟨[(sidS, exSessUV)], [(sessionRoom sidS, [connC1, connC2])], ⟨[]⟩⟩

/-- A stored session with one participant, used by the C2 counterexample
and several witnesses. -/
def exSessV : SessionData :=
  { id := sidS, creator_id := uidV, name := sidS, sessType := defaultSessType
    max_participants := 4, created_at := 0, participants := [uidV]
    settings := "", updated_at := none }

/-- State: session `s` stored with participant `v`, whose connection `c2`
is already in the session room; `c1` has not joined yet. -/
def exStateC2 : ServerState :=
  ⟨[(sidS, exSessV)], [(sessionRoom sidS, [connC2])], ⟨[]⟩⟩

/-! ## C1 — disconnect does not run the leave cleanup -/

/-- C1 counterexample: in `exStateC1` the user `u` (connection `c1`) is a
participant of session `s`; the claim says a disconnect of `c1` removes
`u` from the participant set and emits the departure notification to the
remaining members — but after `handle_disconnect` the user is still
stored and no `user_left` event is emitted. -/
theorem disconnect_cleanup_cex :
    ¬ ((uidU ∉ ((participantsOf (handle_disconnect exStateC1 connC1).1 sidS).getD [])) ∧
       ∃ e ∈ (handle_disconnect exStateC1 connC1).2, e.event = evUserLeft) := by
  decide

/-- C1 (amended): the `disconnect` handler performs no leave cleanup: it
returns the server state (participant sets, rooms, documents) unchanged
and emits exactly one `disconnected` acknowledgment to the disconnecting
connection. -/
theorem handle_disconnect_no_cleanup (st : ServerState) (conn : String) :
    handle_disconnect st conn =
      (st,
       [{ event := evDisconnected
          payload := { message := some msgDisconnectedTxt }
          target := EmitTarget.toSender }]) := rfl

/-! ## C2 — the session_state reply is broadcast to the whole room -/

/-- C2 counterexample: connection `c2` is already in the room of session
`s` when `c1` sends `join_session`; the claim says the `session_state`
reply reaches the joining connection only, i.e. its recipient list is
`[c1]` — but the room-targeted emit also reaches `c2`. -/
theorem session_state_only_joiner_cex :
    ¬ (∀ e ∈ (handle_join_session exStateC2 connC1 sidS uidU 5).2,
         recipients (handle_join_session exStateC2 connC1 sidS uidU 5).1 connC1 e
           = [connC1]) := by
  decide

/-- C2 (amended): for a `join_session` event on a known session, the
handler emits exactly one `session_state` event (current participants and
settings), targeted at the whole session room with the default
`include_self`, so its recipients are all connections in the room after
the join — the joining connection among them — not the joiner alone. -/
theorem handle_join_session_state_to_room (st : ServerState)
    (conn sid uid : String) (now : Nat) (s : SessionData)
    (hs : alookup sid st.active_sessions = some s) :
    ∃ em : Emission,
      (handle_join_session st conn sid uid now).2 = [em] ∧
      em.event = evSessionState ∧
      em.target = EmitTarget.toRoom (sessionRoom sid) true ∧
      recipients (handle_join_session st conn sid uid now).1 conn em =
        roomMembers (handle_join_session st conn sid uid now).1 (sessionRoom sid) ∧
      conn ∈ roomMembers (handle_join_session st conn sid uid now).1 (sessionRoom sid) := by
  simp only [handle_join_session, hs]
  refine ⟨_, rfl, rfl, rfl, rfl, ?_⟩
  simp only [roomMembers]
  exact mem_addToRoom_self st.rooms (sessionRoom sid) conn

/-- Closed instance of the C2 amended theorem at `exStateC2`. -/
theorem handle_join_session_state_to_room_witness :
    ∃ em : Emission,
      (handle_join_session exStateC2 connC1 sidS uidU 5).2 = [em] ∧
      em.event = evSessionState ∧
      em.target = EmitTarget.toRoom (sessionRoom sidS) true ∧
      recipients (handle_join_session exStateC2 connC1 sidS uidU 5).1 connC1 em =
        roomMembers (handle_join_session exStateC2 connC1 sidS uidU 5).1 (sessionRoom sidS) ∧
      connC1 ∈ roomMembers (handle_join_session exStateC2 connC1 sidS uidU 5).1 (sessionRoom sidS) :=
  handle_join_session_state_to_room exStateC2 connC1 sidS uidU 5 exSessV (by decide)

/-- A document that has already integrated two items. -/
def exDoc : Doc := ⟨[104, 105]⟩

/-- State: the session manager already holds a document for session `s`;
the HTTP-side table and the room table are empty (irrelevant here). -/
def exStateC3 : ServerState :=
  ⟨[], [], ⟨[(sidS, ⟨exDoc, 0, 0, []⟩)]⟩⟩

/-! ## C3 — empty/absent state vector: full-state step-2 reply to sender only -/

/-- C3: for a `yjs_sync_step1` event with a truthy session id and an
absent or empty state vector, the handler emits exactly one
`yjs_sync_step2` whose update bytes are the full-document-state encoding
of the session's document (after the lazy get-or-create); that encoding,
merged into an empty document, reproduces the document; and the emission
has no room target, so in any server state its recipients are exactly the
requesting connection. -/
theorem sync_step1_empty_sv_full_state (st : ServerState) (conn sid : String)
    (sv : Option Bytes) (now : Nat)
    (hsid : sid ≠ "")
    (hsv : sv = none ∨ sv = some []) :
    (handle_yjs_sync_step1 st conn (some sid) sv now).2 =
      [{ event := evSyncStep2
         payload := { session_id := some sid
                      docUpdate :=
                        some (encode_state_as_update_full
                                (st.manager.get_doc sid now).1) }
         target := EmitTarget.toSender }] ∧
    (∀ st2 : ServerState, ∀ e ∈ (handle_yjs_sync_step1 st conn (some sid) sv now).2,
       recipients st2 conn e = [conn]) ∧
    apply_update YDoc_new
        (encode_state_as_update_full (st.manager.get_doc sid now).1) =
      (st.manager.get_doc sid now).1 := by
  have hbytes : syncStep2Bytes (st.manager.get_doc sid now).1 sv =
      encode_state_as_update_full (st.manager.get_doc sid now).1 := by
    rcases hsv with h | h <;> subst h <;> simp [syncStep2Bytes]
  refine ⟨?_, ?_, rfl⟩
  · simp [handle_yjs_sync_step1, hsid, SessionManager.handle_sync_step1, hbytes]
  · intro st2 e he
    simp [handle_yjs_sync_step1, hsid, SessionManager.handle_sync_step1] at he
    subst he
    rfl

/-- Closed instance of the C3 theorem: session `s` exists in the manager
with a non-empty document; an absent state vector yields the full-state
bootstrap reply. -/
theorem sync_step1_empty_sv_full_state_witness :
    (handle_yjs_sync_step1 exStateC3 connC1 (some sidS) none 9).2 =
      [{ event := evSyncStep2
         payload := { session_id := some sidS
                      docUpdate :=
                        some (encode_state_as_update_full
                                (exStateC3.manager.get_doc sidS 9).1) }
         target := EmitTarget.toSender }] ∧
    (∀ st2 : ServerState, ∀ e ∈ (handle_yjs_sync_step1 exStateC3 connC1 (some sidS) none 9).2,
       recipients st2 connC1 e = [connC1]) ∧
    apply_update YDoc_new
        (encode_state_as_update_full (exStateC3.manager.get_doc sidS 9).1) =
      (exStateC3.manager.get_doc sidS 9).1 :=
  sync_step1_empty_sv_full_state exStateC3 connC1 sidS none 9 (by decide)
    (Or.inl rfl)

/-! ## C6 — malformed state vector: fall back to full state, never error -/

/-- C6: when the state vector is non-empty but malformed (the CRDT
engine's delta encoder rejects it), `handle_sync_step1` swallows the
failure and returns the full-state encoding, and the `yjs_sync_step1`
route still emits the normal single `yjs_sync_step2` reply carrying that
fallback — no error event reaches the caller and no other emission is
produced. -/
theorem sync_step1_malformed_fallback (st : ServerState) (conn sid : String)
    (v : Bytes) (now : Nat)
    (hsid : sid ≠ "") (hv : v ≠ []) (hbad : svWellFormed v = false) :
    (st.manager.handle_sync_step1 sid (some v) now).1 =
      encode_state_as_update_full (st.manager.get_doc sid now).1 ∧
    (handle_yjs_sync_step1 st conn (some sid) (some v) now).2 =
      [{ event := evSyncStep2
         payload := { session_id := some sid
                      docUpdate :=
                        some (encode_state_as_update_full
                                (st.manager.get_doc sid now).1) }
         target := EmitTarget.toSender }] := by
  have hbytes : syncStep2Bytes (st.manager.get_doc sid now).1 (some v) =
      encode_state_as_update_full (st.manager.get_doc sid now).1 := by
    simp [syncStep2Bytes, hv, encode_state_as_update_delta, hbad]
  constructor
  · simp [SessionManager.handle_sync_step1, hbytes]
  · simp [handle_yjs_sync_step1, hsid, SessionManager.handle_sync_step1, hbytes]

/-- Closed instance of the C6 theorem: the state vector `[7]` has odd
length, so the modelled delta encoder rejects it; the reply still carries
the full document state. -/
theorem sync_step1_malformed_fallback_witness :
    (exStateC3.manager.handle_sync_step1 sidS (some [7]) 9).1 =
      encode_state_as_update_full (exStateC3.manager.get_doc sidS 9).1 ∧
    (handle_yjs_sync_step1 exStateC3 connC1 (some sidS) (some [7]) 9).2 =
      [{ event := evSyncStep2
         payload := { session_id := some sidS
                      docUpdate :=
                        some (encode_state_as_update_full
                                (exStateC3.manager.get_doc sidS 9).1) }
         target := EmitTarget.toSender }] :=
  sync_step1_malformed_fallback exStateC3 connC1 sidS [7] 9 (by decide)
    (by decide) (by decide)

/-! ## C4 — HTTP join: the SESSION_FULL path is dead code, every request 500s -/

/-- A stored session that is exactly at capacity (`max_participants = 1`,
one participant). -/
def exSessFull : SessionData :=
  { id := sidS, creator_id := uidU, name := sidS, sessType := defaultSessType
    max_participants := 1, created_at := 0, participants := [uidU]
    settings := "", updated_at := none }

/-- State: session `s` is at capacity. -/
def exStateFull : ServerState := ⟨[(sidS, exSessFull)], [], ⟨[]⟩⟩

/-- C4 at the failing input (HTTP join of `v` into the at-capacity
session `s`): the claimed `SESSION_FULL` 400 rejection never happens —
the route/view signature mismatch makes the endpoint return the 500
`INTERNAL_ERROR` response, with the state untouched and nothing emitted.
The view's unreachable body would have produced exactly the claimed
rejection (documenting that the claim matches the dead code's intent),
and the WebSocket half of the claim does hold: `join_session` over
capacity appends the user with no check. -/
theorem http_join_full_session_internal_error :
    (join_session exStateFull uidV sidS 3).1 =
      HttpResult.err codeInternal msgInternalTxt 500 ∧
    (join_session exStateFull uidV sidS 3).2.1 = exStateFull ∧
    (join_session exStateFull uidV sidS 3).2.2 = [] ∧
    (join_session_body exStateFull uidV sidS 3).1 =
      HttpResult.err codeFull msgFull 400 ∧
    participantsOf (handle_join_session exStateFull connC2 sidS uidV 3).1 sidS =
      some (exSessFull.participants ++ [uidV]) := by
  decide

/-! ## C7 — unknown session id: GET 404s, join/leave 500, get_doc auto-creates -/

/-- C7 at the failing input (the unknown session id `s` at process start):
the metadata GET does return the claimed 404 `SESSION_NOT_FOUND` and the
manager's `get_doc` never fails — it auto-creates the entry with an empty
text container and returns that same document, manager unchanged, on the
next access — but the claimed 404 on HTTP join and leave never happens:
their route/view signature mismatch turns every request into the 500
`INTERNAL_ERROR` response (state untouched).  The unreachable view bodies
would have produced exactly the claimed 404, documenting the dead code's
intent. -/
theorem unknown_session_http_behavior :
    get_session initialState sidS = HttpResult.err codeNotFound msgNotFound 404 ∧
    (join_session initialState uidU sidS 2).1 =
      HttpResult.err codeInternal msgInternalTxt 500 ∧
    (join_session initialState uidU sidS 2).2.1 = initialState ∧
    (leave_session initialState uidU sidS 2).1 =
      HttpResult.err codeInternal msgInternalTxt 500 ∧
    (leave_session initialState uidU sidS 2).2.1 = initialState ∧
    (join_session_body initialState uidU sidS 2).1 =
      HttpResult.err codeNotFound msgNotFound 404 ∧
    (leave_session_body initialState uidU sidS 2).1 =
      HttpResult.err codeNotFound msgNotFound 404 ∧
    getTextStr (initialState.manager.get_doc sidS 2).1 = "" ∧
    alookup sidS ((initialState.manager.get_doc sidS 2).2).sessions =
      some ⟨(initialState.manager.get_doc sidS 2).1, 2, 2, []⟩ ∧
    ((initialState.manager.get_doc sidS 2).2).get_doc sidS 8 =
      ((initialState.manager.get_doc sidS 2).1, (initialState.manager.get_doc sidS 2).2) := by
  decide

/-! ## C5 — echo semantics of update / cursor / chat broadcasts -/

/-- C5: a (truthy, non-empty) `yjs_update` and a `cursor_position` event
each produce exactly one room broadcast whose recipients are precisely
the room's connections other than the sender — the sender never receives
its own event; a `chat_message` event produces exactly one broadcast
carrying the freshly generated id and the timestamp, whose recipients are
the whole room, the sender included when it is in the room. -/
theorem broadcast_echo_semantics (st : ServerState)
    (sender sid uid pos msg gid : String) (u : Bytes) (now : Nat)
    (hsid : sid ≠ "") (hu : u ≠ []) :
    (∃ em : Emission,
       (handle_yjs_update st sender (some sid) (some u) now).2 = [em] ∧
       em.event = evYjsUpdate ∧
       (∀ c : String,
          c ∈ recipients (handle_yjs_update st sender (some sid) (some u) now).1 sender em ↔
            (c ∈ roomMembers st (sessionRoom sid) ∧ c ≠ sender)) ∧
       sender ∉ recipients (handle_yjs_update st sender (some sid) (some u) now).1 sender em) ∧
    (∃ em : Emission,
       (handle_cursor_position st sender (some sid) (some uid) (some pos) now).2 = [em] ∧
       em.event = evCursorUpdated ∧
       (∀ c : String,
          c ∈ recipients st sender em ↔
            (c ∈ roomMembers st (sessionRoom sid) ∧ c ≠ sender)) ∧
       sender ∉ recipients st sender em) ∧
    (∃ em : Emission,
       (handle_chat_message st sender (some sid) (some uid) (some msg) gid now).2 = [em] ∧
       em.event = evChatMessage ∧
       em.payload.payload_id = some gid ∧
       em.payload.timestamp = some now ∧
       recipients st sender em = roomMembers st (sessionRoom sid) ∧
       (sender ∈ roomMembers st (sessionRoom sid) →
          sender ∈ recipients st sender em)) := by
  refine ⟨?_, ?_, ?_⟩
  · simp only [handle_yjs_update]
    rw [if_neg (by simp [hsid, hu])]
    refine ⟨_, rfl, rfl, ?_, ?_⟩
    · intro c
      simp [recipients, roomMembers, List.mem_filter]
    · simp [recipients, List.mem_filter]
  · refine ⟨_, rfl, rfl, ?_, ?_⟩
    · intro c
      simp [recipients, roomMembers, sessionRoomOf, sessionRoom, pyStr,
        List.mem_filter]
    · simp [recipients, List.mem_filter]
  · refine ⟨_, rfl, rfl, rfl, rfl, ?_, ?_⟩
    · simp [recipients, roomMembers, sessionRoomOf, sessionRoom, pyStr]
    · intro hmem
      simpa [recipients, roomMembers, sessionRoomOf, sessionRoom, pyStr]
        using hmem

/-- State with two connections in the room of session `s` (and nothing
else), used for the C5 witness. -/
def exStateRoom : ServerState :=
  ⟨[], [(sessionRoom sidS, [connC1, connC2])], ⟨[]⟩⟩

/-- Closed instance of the C5 theorem: `c1` sends an update, a cursor
move and a chat message in a room it shares with `c2`. -/
theorem broadcast_echo_semantics_witness :
    (∃ em : Emission,
       (handle_yjs_update exStateRoom connC1 (some sidS) (some [1]) 4).2 = [em] ∧
       em.event = evYjsUpdate ∧
       (∀ c : String,
          c ∈ recipients (handle_yjs_update exStateRoom connC1 (some sidS) (some [1]) 4).1 connC1 em ↔
            (c ∈ roomMembers exStateRoom (sessionRoom sidS) ∧ c ≠ connC1)) ∧
       connC1 ∉ recipients (handle_yjs_update exStateRoom connC1 (some sidS) (some [1]) 4).1 connC1 em) ∧
    (∃ em : Emission,
       (handle_cursor_position exStateRoom connC1 (some sidS) (some uidU) (some uidU) 4).2 = [em] ∧
       em.event = evCursorUpdated ∧
       (∀ c : String,
          c ∈ recipients exStateRoom connC1 em ↔
            (c ∈ roomMembers exStateRoom (sessionRoom sidS) ∧ c ≠ connC1)) ∧
       connC1 ∉ recipients exStateRoom connC1 em) ∧
    (∃ em : Emission,
       (handle_chat_message exStateRoom connC1 (some sidS) (some uidU) (some uidU) genId1 4).2 = [em] ∧
       em.event = evChatMessage ∧
       em.payload.payload_id = some genId1 ∧
       em.payload.timestamp = some 4 ∧
       recipients exStateRoom connC1 em = roomMembers exStateRoom (sessionRoom sidS) ∧
       (connC1 ∈ roomMembers exStateRoom (sessionRoom sidS) →
          connC1 ∈ recipients exStateRoom connC1 em)) :=
  broadcast_echo_semantics exStateRoom connC1 sidS uidU uidU uidU genId1 [1] 4
    (by decide) (by decide)

/-! ## C8 — the merge lock is global, not per session -/

/-- C8 counterexample: the claimed mutual-exclusion granularity — one
lock per session, so that two distinct sessions hold distinct locks — is
false: `process_update` always acquires the manager's single lock, and
sessions `s` and `u` share it. -/
theorem per_session_lock_cex :
    ¬ (∀ (m : SessionManager) (s1 s2 : String), s1 ≠ s2 →
         processUpdateLockOf m s1 ≠ processUpdateLockOf m s2) := by
  intro hcl
  exact hcl ⟨[]⟩ sidS uidU (by decide) rfl

/-- C8 (amended): document merges serialize globally, not per session:
every `process_update` acquires the one manager-wide lock, so two
connections in the same session indeed never merge concurrently, but two
different sessions cannot merge in parallel either — the granularity is
one lock per `SessionManager`, not one per session. -/
theorem merge_lock_is_global (m : SessionManager) (s1 s2 : String) :
    processUpdateLockOf m s1 = processUpdateLockOf m s2 ∧
    mayMergeInParallel m s1 s2 = false :=
  ⟨rfl, rfl⟩

/-! ## C10 — WebSocket join on an unknown session half-completes -/

/-- C10: a `join_session` event whose session id is not in
`active_sessions` still adds the connection to that session's room, but
emits nothing (no `session_state`), stores no session metadata, records
no participant, and leaves the session manager untouched. -/
theorem ws_join_unknown_session (st : ServerState) (conn sid uid : String)
    (now : Nat)
    (h : alookup sid st.active_sessions = none) :
    (handle_join_session st conn sid uid now).2 = [] ∧
    (handle_join_session st conn sid uid now).1.active_sessions =
      st.active_sessions ∧
    (handle_join_session st conn sid uid now).1.manager = st.manager ∧
    conn ∈ roomMembers (handle_join_session st conn sid uid now).1
      (sessionRoom sid) := by
  simp only [handle_join_session, h]
  refine ⟨trivial, trivial, trivial, ?_⟩
  simp only [roomMembers]
  exact mem_addToRoom_self st.rooms (sessionRoom sid) conn

/-- Closed instance of the C10 theorem: joining the unknown session `s`
at process start. -/
theorem ws_join_unknown_session_witness :
    (handle_join_session initialState connC1 sidS uidU 1).2 = [] ∧
    (handle_join_session initialState connC1 sidS uidU 1).1.active_sessions =
      initialState.active_sessions ∧
    (handle_join_session initialState connC1 sidS uidU 1).1.manager =
      initialState.manager ∧
    connC1 ∈ roomMembers (handle_join_session initialState connC1 sidS uidU 1).1
      (sessionRoom sidS) :=
  ws_join_unknown_session initialState connC1 sidS uidU 1 (by decide)

/-! ## C9 — participants stay duplicate-free; add/remove idempotent -/

theorem nodup_append_single {l : List String} {a : String}
    (hl : l.Nodup) (ha : a ∉ l) : (l ++ [a]).Nodup := by
  simp [List.nodup_append, hl, ha]

theorem nodup_upsert {l : List (String × SessionData)} {sid : String}
    {sd : SessionData}
    (h : ∀ q ∈ l, (q.2).participants.Nodup)
    (hsd : sd.participants.Nodup) :
    ∀ q ∈ upsert l sid sd, (q.2).participants.Nodup := by
  intro q hq
  rcases mem_upsert hq with h1 | h1
  · rw [h1]
    exact hsd
  · exact h q h1

theorem participantsNodup_applyOp {st : ServerState}
    (h : ParticipantsNodup st) (op : Op) :
    ParticipantsNodup (applyOp st op) := by
  cases op with
  | createOp uid data gsid now =>
    intro q hq
    simp only [applyOp, create_session] at hq
    rcases mem_upsert hq with h1 | h1
    · rw [h1]
      simp
    · exact h q h1
  | httpJoinOp uid sid now =>
    intro q hq
    exact h q hq
  | httpLeaveOp uid sid now =>
    intro q hq
    exact h q hq
  | wsJoinOp conn sid uid now =>
    intro q hq
    cases hl : alookup sid st.active_sessions with
    | none =>
      simp only [applyOp, handle_join_session, hl] at hq
      exact h q hq
    | some s =>
      simp only [applyOp, handle_join_session, hl] at hq
      have hsnd : s.participants.Nodup := h (sid, s) (alookup_mem hl)
      by_cases hmem : uid ∈ s.participants
      · rw [if_pos hmem] at hq
        exact nodup_upsert h hsnd q hq
      · rw [if_neg hmem] at hq
        exact nodup_upsert h (nodup_append_single hsnd hmem) q hq

theorem participantsNodup_applyOps {st : ServerState}
    (h : ParticipantsNodup st) (ops : List Op) :
    ParticipantsNodup (applyOps st ops) := by
  induction ops generalizing st with
  | nil => exact h
  | cons op t ih => exact ih (participantsNodup_applyOp h op)

/-- C9: after any sequence of create / HTTP join / HTTP leave / WebSocket
join operations from process start, every stored session's participants
list is duplicate-free.  Adding a present user and removing an absent one
leave everything unchanged: the HTTP join and leave endpoints never
mutate at all (their view bodies are unreachable — every request 500s),
and the WebSocket join of an already-present user changes neither the
participant set nor `updated_at`.  The only live, effective participant
change on these operations is the WebSocket join of an absent user, which
appends exactly that user and refreshes `updated_at` to the operation's
time. -/
theorem participants_set_semantics :
    (∀ ops : List Op, ParticipantsNodup (applyOps initialState ops)) ∧
    (∀ (st : ServerState) (uid sid : String) (now : Nat),
       (join_session st uid sid now).2.1 = st) ∧
    (∀ (st : ServerState) (uid sid : String) (now : Nat),
       (leave_session st uid sid now).2.1 = st) ∧
    (∀ (st : ServerState) (conn uid sid : String) (now : Nat) (s : SessionData),
       alookup sid st.active_sessions = some s → uid ∈ s.participants →
       participantsOf (handle_join_session st conn sid uid now).1 sid = some s.participants ∧
       updatedAtOf (handle_join_session st conn sid uid now).1 sid = some s.updated_at) ∧
    (∀ (st : ServerState) (conn uid sid : String) (now : Nat) (s : SessionData),
       alookup sid st.active_sessions = some s → uid ∉ s.participants →
       participantsOf (handle_join_session st conn sid uid now).1 sid =
         some (s.participants ++ [uid]) ∧
       updatedAtOf (handle_join_session st conn sid uid now).1 sid = some (some now)) := by
  refine ⟨?_, ?_, ?_, ?_, ?_⟩
  · intro ops
    refine participantsNodup_applyOps ?_ ops
    intro q hq
    simp [initialState] at hq
  · intro st uid sid now
    rfl
  · intro st uid sid now
    rfl
  · intro st conn uid sid now s hs hmem
    constructor <;>
      simp [handle_join_session, hs, hmem, participantsOf, updatedAtOf,
        alookup_upsert_self]
  · intro st conn uid sid now s hs hmem
    constructor <;>
      simp [handle_join_session, hs, hmem, participantsOf, updatedAtOf,
        alookup_upsert_self]

/-- Closed instance of the C9 theorem: the Nodup invariant after a small
concrete operation sequence mixing all four operation kinds, the no-op
behavior of the HTTP endpoints, the idempotence of a WebSocket join of
the already-present `v` in `exStateC2`, and an effective WebSocket add of
`u` with `updated_at` refreshed. -/
theorem participants_set_semantics_witness :
    ParticipantsNodup (applyOps initialState
      [Op.createOp uidU {} sidS 0, Op.httpJoinOp uidV sidS 1,
       Op.wsJoinOp connC1 sidS uidV 2, Op.httpLeaveOp uidU sidS 3]) ∧
    (join_session exStateC2 uidU sidS 7).2.1 = exStateC2 ∧
    (leave_session exStateC2 uidU sidS 7).2.1 = exStateC2 ∧
    (participantsOf (handle_join_session exStateC2 connC1 sidS uidV 7).1 sidS =
       some exSessV.participants ∧
     updatedAtOf (handle_join_session exStateC2 connC1 sidS uidV 7).1 sidS =
       some exSessV.updated_at) ∧
    (participantsOf (handle_join_session exStateC2 connC1 sidS uidU 7).1 sidS =
       some (exSessV.participants ++ [uidU]) ∧
     updatedAtOf (handle_join_session exStateC2 connC1 sidS uidU 7).1 sidS =
       some (some 7)) :=
  ⟨participants_set_semantics.1 _,
   participants_set_semantics.2.1 exStateC2 uidU sidS 7,
   participants_set_semantics.2.2.1 exStateC2 uidU sidS 7,
   participants_set_semantics.2.2.2.1 exStateC2 connC1 uidV sidS 7 exSessV
     (by decide) (by decide),
   participants_set_semantics.2.2.2.2 exStateC2 connC1 uidU sidS 7 exSessV
     (by decide) (by decide)⟩

end Collab
